import Mathlib

/-!
Verification of the comment/caption analytics engine of the YouTube
scraper repository.  The Python analysis routines
(`youtube_scraper.py`, `youtube_caption_downloader.py`,
`examples/development-workflows/youtube-analytics/analyze_comments.py`)
are shallowly embedded as executable Lean functions over in-memory
records.  Strings are modelled as `List Char`; Python floats over the
small exact values used by the analytics are modelled as `ℚ`; regular
expression idioms of the source (`\w` runs, lazy bracketed-group
removal, word-boundary counting) are modelled character by character on
the ASCII fragment the analytics operate on.
-/

unseal Rat.add Rat.mul Rat.inv Rat.sub

set_option maxRecDepth 8192

/-- ASCII model of the regex word-character class `\w` used by the source. -/
def isWordChar (c : Char) : Bool := c.isAlphanum || c == '_'

/-- Python `str.strip`: remove leading and trailing whitespace. -/
def pyStrip (s : List Char) : List Char :=
  ((s.dropWhile Char.isWhitespace).reverse.dropWhile Char.isWhitespace).reverse

/-- Python `str.lower` on the ASCII fragment. -/
def pyLower (s : List Char) : List Char := s.map Char.toLower

/-- Accumulator-passing worker for `runsOf`. -/
def runsOfAux (p : Char → Bool) : List Char → List Char → List (List Char)
  | acc, [] => if acc.isEmpty then [] else [acc.reverse]
  | acc, c :: rest =>
    if p c then runsOfAux p (c :: acc) rest
    else if acc.isEmpty then runsOfAux p [] rest
    else acc.reverse :: runsOfAux p [] rest

/-- Maximal runs of characters satisfying `p`; models `re.findall` over a
character class. -/
def runsOf (p : Char → Bool) (s : List Char) : List (List Char) := runsOfAux p [] s

/-- Python `str.split()` with no argument: maximal runs of non-whitespace. -/
def pySplit (s : List Char) : List (List Char) := runsOf (fun c => !c.isWhitespace) s

/-- Python `' '.join`. -/
def joinSpace (parts : List (List Char)) : List Char := List.intercalate [' '] parts

/-- Python's substring containment test `needle in hay`. -/
def isSubstr (needle : List Char) : List Char → Bool
  | [] => needle.isEmpty
  | c :: rest => needle.isPrefixOf (c :: rest) || isSubstr needle rest

/-- Distinct elements of a list in first-occurrence order. -/
def firstOccs {α : Type} [DecidableEq α] : List α → List α
  | [] => []
  | a :: l => a :: (firstOccs l).filter (fun x => x ≠ a)

/-- Model of `collections.Counter` viewed as an association list: keys in
first-insertion order, each with its multiplicity. -/
def counterItems {α : Type} [DecidableEq α] (l : List α) : List (α × Nat) :=
  (firstOccs l).map (fun a => (a, l.count a))

/-- Descending-count order used by `Counter.most_common`. -/
def countGE {α : Type} (a b : α × Nat) : Prop := b.2 ≤ a.2

instance {α : Type} : DecidableRel (@countGE α) :=
  fun a b => inferInstanceAs (Decidable (b.2 ≤ a.2))

instance {α : Type} : IsTotal (α × Nat) countGE := ⟨fun a b => Nat.le_total b.2 a.2⟩

instance {α : Type} : IsTrans (α × Nat) countGE := ⟨fun _ _ _ h1 h2 => le_trans h2 h1⟩

/-- `Counter(l).most_common(n)`: stable sort of the counted items by count
descending, truncated to `n`. -/
def mostCommon {α : Type} [DecidableEq α] (l : List α) (n : Nat) : List (α × Nat) :=
  ((counterItems l).insertionSort countGE).take n

/-- Raw transcript entry as returned by the transcript API. -/
structure RawEntry where
  start : ℚ
  duration : ℚ
  text : List Char
deriving DecidableEq

/-- Processed caption segment built by `_process_transcript`. -/
structure Segment where
  start : ℚ
  duration : ℚ
  «end» : ℚ
  text : List Char
  original_text : List Char
  timestamp : String
deriving DecidableEq

/-- Statistics mapping produced by `_process_transcript`. -/
structure TranscriptStats where
  total_duration : ℚ
  total_segments : Nat
  total_words : Nat
  total_characters : Nat
  average_segment_length : ℚ
  words_per_minute : ℚ
  duration_formatted : String
deriving DecidableEq

/-- Result of `_process_transcript`. -/
structure ProcessedTranscript where
  full_text : List Char
  segments : List Segment
  statistics : TranscriptStats
deriving DecidableEq

namespace YouTubeCaptionDownloader

/-- Whether a closing character occurs before any newline: the lazy middle
`.*?` of the source's bracket-removal regexes cannot cross a newline. -/
def hasClose (cls : Char) : List Char → Bool
  | [] => false
  | c :: rest => if c == cls then true else if c == '\n' then false else hasClose cls rest

/-- Worker for `removeDelim`; the flag records whether the scan is inside a
match currently being deleted. -/
def removeDelimAux (opn cls : Char) : Bool → List Char → List Char
  | false, [] => []
  | false, c :: rest =>
    if c == opn && hasClose cls rest then removeDelimAux opn cls true rest
    else c :: removeDelimAux opn cls false rest
  | true, [] => []
  | true, c :: rest =>
    if c == cls then removeDelimAux opn cls false rest
    else removeDelimAux opn cls true rest

/-- One `re.sub` pass deleting lazily delimited groups such as `[...]` or
`(...)`, as in `_clean_caption_text`. -/
def removeDelim (opn cls : Char) (s : List Char) : List Char := removeDelimAux opn cls false s

/-- Whether a `<<` closing marker occurs before any newline. -/
def hasCloseAngles : List Char → Bool
  | c1 :: c2 :: rest =>
    if c1 == '<' && c2 == '<' then true
    else if c1 == '\n' then false
    else hasCloseAngles (c2 :: rest)
  | _ => false

/-- Worker deleting speaker markers `>>...<<` as in `_clean_caption_text`. -/
def removeSpeakerAux : Bool → List Char → List Char
  | false, c1 :: c2 :: rest =>
    if c1 == '>' && c2 == '>' && hasCloseAngles rest then removeSpeakerAux true rest
    else c1 :: removeSpeakerAux false (c2 :: rest)
  | false, s => s
  | true, c1 :: c2 :: rest =>
    if c1 == '<' && c2 == '<' then removeSpeakerAux false rest
    else removeSpeakerAux true (c2 :: rest)
  | true, _ => []

/-- The `re.sub` pass deleting `>>...<<` speaker markers. -/
def removeSpeaker (s : List Char) : List Char := removeSpeakerAux false s

/-- Worker for `normWs`; the flag records whether the previous character was
whitespace (already emitted as a single space). -/
def normWsAux : Bool → List Char → List Char
  | _, [] => []
  | prevWs, c :: rest =>
    if c.isWhitespace then
      if prevWs then normWsAux true rest else ' ' :: normWsAux true rest
    else c :: normWsAux false rest

/-- The `re.sub` pass collapsing whitespace runs to a single space. -/
def normWs (s : List Char) : List Char := normWsAux false s

/-- Model of `_clean_caption_text`: delete `[...]`, then `(...)`, then
`>>...<<`, collapse whitespace, and strip. -/
def clean_caption_text (text : List Char) : List Char :=
  pyStrip (normWs (removeSpeaker (removeDelim '(' ')' (removeDelim '[' ']' text))))

/-- Two-digit zero padding as in the format spec `02d`. -/
def pad2 (n : Nat) : String := if n < 10 then "0" ++ toString n else toString n

/-- Model of `_seconds_to_timestamp`: HH:MM:SS by integer division, the
`int` truncation being toward zero exactly as in the source. -/
def seconds_to_timestamp (seconds : ℚ) : String :=
  let total := (seconds.num / (seconds.den : Int)).toNat
  let hours := total / 3600
  let remainder := total % 3600
  pad2 hours ++ ":" ++ pad2 (remainder / 60) ++ ":" ++ pad2 (remainder % 60)

/-- Segment-construction loop of `_process_transcript`: an entry contributes
a segment exactly when its raw text strips to non-empty; the cleaned text of
a contributed segment may nevertheless be empty. -/
def processEntries : List RawEntry → List Segment
  | [] => []
  | e :: rest =>
    let t := pyStrip e.text
    if t = [] then processEntries rest
    else
      { start := e.start, duration := e.duration, «end» := e.start + e.duration,
        text := clean_caption_text t, original_text := t,
        timestamp := seconds_to_timestamp e.start } :: processEntries rest

/-- Python `max` over a list of rationals (the running maximum is replaced
only by a strictly greater element), with the source's guarded default of `0`
for the empty case. -/
def listMax : List ℚ → ℚ
  | [] => 0
  | x :: xs => xs.foldl (fun cur y => if cur < y then y else cur) x

/-- Model of `_process_transcript`.  The early return for an empty raw
transcript is kept; the keys missing from that branch's statistics dict are
modelled by the values the general path would compute on no segments. -/
def process_transcript (transcript : List RawEntry) : ProcessedTranscript :=
  if transcript = [] then
    { full_text := [], segments := [],
      statistics :=
        { total_duration := 0, total_segments := 0, total_words := 0,
          total_characters := 0, average_segment_length := 0,
          words_per_minute := 0, duration_formatted := seconds_to_timestamp 0 } }
  else
    let segments := processEntries transcript
    let full_text := joinSpace (segments.map Segment.text)
    let total_duration := listMax (segments.map Segment.«end»)
    let total_words := if full_text = [] then 0 else (pySplit full_text).length
    { full_text := full_text, segments := segments,
      statistics :=
        { total_duration := total_duration,
          total_segments := segments.length,
          total_words := total_words,
          total_characters := full_text.length,
          average_segment_length :=
            if segments = [] then 0 else (segments.length : ℚ) / (segments.length : ℚ),
          words_per_minute :=
            if 0 < total_duration then (total_words : ℚ) / (total_duration / 60) else 0,
          duration_formatted := seconds_to_timestamp total_duration } }

end YouTubeCaptionDownloader

/-- The caption scenario input of the specification. -/
def demoEntries : List RawEntry :=
  [ { start := 0, duration := 2, text := "[Music]".toList },
    { start := 2, duration := 3, text := "hello world".toList } ]

/-- Each raw entry contributes one segment exactly when its stripped raw text
is non-empty. -/
theorem processEntries_length (l : List RawEntry) :
    (YouTubeCaptionDownloader.processEntries l).length
      = l.countP (fun e => !(pyStrip e.text).isEmpty) := by
  induction l with
  | nil => rfl
  | cons e rest ih =>
    by_cases h : pyStrip e.text = []
    · simp [YouTubeCaptionDownloader.processEntries, h, List.countP_cons, ih]
    · simp [YouTubeCaptionDownloader.processEntries, h, List.countP_cons, ih,
        List.isEmpty_iff]

/-- C1 counterexample: on the specification's scenario input the claim demands
exactly one segment, but the "[Music]" entry — whose cleaned text is empty —
still produces a segment, so two segments are emitted. -/
theorem C1_counterexample :
    (YouTubeCaptionDownloader.process_transcript demoEntries).segments.length = 2 ∧
    YouTubeCaptionDownloader.clean_caption_text (pyStrip ("[Music]".toList)) = [] :=
  ⟨by decide, by decide⟩

/-- C1 (amended): the caption segment processor produces an output segment
exactly for those entries whose raw text, stripped of surrounding whitespace,
is non-empty — an entry whose text merely cleans to empty is not dropped; on
the scenario input it yields two segments (the "[Music]" entry survives with
empty cleaned text), with total_words = 2 and total_duration = 5. -/
theorem C1_segments_follow_raw_text (transcript : List RawEntry) :
    (YouTubeCaptionDownloader.process_transcript transcript).segments.length
      = transcript.countP (fun e => !(pyStrip e.text).isEmpty) ∧
    (YouTubeCaptionDownloader.process_transcript demoEntries).segments.length = 2 ∧
    (YouTubeCaptionDownloader.process_transcript demoEntries).statistics.total_words = 2 ∧
    (YouTubeCaptionDownloader.process_transcript demoEntries).statistics.total_duration = 5 := by
  refine ⟨?_, by decide, by decide, by decide⟩
  by_cases h : transcript = []
  · subst h; rfl
  · simp [YouTubeCaptionDownloader.process_transcript, h, processEntries_length]

/-- Comment record: the fields of the scraped comment dict that the analytics
read; `published_at := none` models a record without that key. -/
structure Comment where
  text : List Char
  author : String
  like_count : Nat
  is_reply : Bool
  published_at : Option (List Char)
deriving DecidableEq

/-- Order "natural-number sort key descending" used by the source's stable
sorts with `reverse=True`. -/
def keyGE {α : Type} (f : α → Nat) (a b : α) : Prop := f b ≤ f a

instance {α : Type} (f : α → Nat) : DecidableRel (keyGE f) :=
  fun a b => inferInstanceAs (Decidable (f b ≤ f a))

instance {α : Type} (f : α → Nat) : IsTotal α (keyGE f) := ⟨fun a b => Nat.le_total (f b) (f a)⟩

instance {α : Type} (f : α → Nat) : IsTrans α (keyGE f) := ⟨fun _ _ _ h1 h2 => le_trans h2 h1⟩

namespace CommentAnalyzer

/-- Sum of the like counts of a record collection. -/
def totalLikes (comments : List Comment) : Nat := (comments.map Comment.like_count).sum

/-- Result mapping of `get_basic_stats`. -/
structure BasicStats where
  total_comments : Nat
  top_level_comments : Nat
  replies : Nat
  total_likes : Nat
  avg_likes : ℚ
  avg_comment_length : ℚ
  high_engagement_count : Nat
  most_active_authors : List (String × Nat)
  reply_ratio : ℚ
deriving DecidableEq

/-- Model of `get_basic_stats`; the early return of the empty dict on an empty
collection is modelled by `none`, so no division is ever attempted there. -/
def get_basic_stats (comments : List Comment) : Option BasicStats :=
  if comments = [] then none
  else
    let total_likes := totalLikes comments
    let avg_likes : ℚ := (total_likes : ℚ) / (comments.length : ℚ)
    some
      { total_comments := comments.length,
        top_level_comments := (comments.filter (fun c => !c.is_reply)).length,
        replies := (comments.filter (fun c => c.is_reply)).length,
        total_likes := total_likes,
        avg_likes := avg_likes,
        avg_comment_length :=
          ((comments.map (fun c => c.text.length)).sum : ℚ) / (comments.length : ℚ),
        high_engagement_count :=
          (comments.filter (fun c => decide (avg_likes * 2 < (c.like_count : ℚ)))).length,
        most_active_authors := mostCommon (comments.map Comment.author) 5,
        reply_ratio :=
          if 0 < comments.length then
            ((comments.filter (fun c => c.is_reply)).length : ℚ) / (comments.length : ℚ)
          else 0 }

/-- The question-indicator strings of `find_questions`; note that the literal
`?` is itself a member of the list. -/
def question_indicators : List (List Char) :=
  ["?", "how", "what", "why", "when", "where", "which", "can you", "could you"].map
    String.toList

/-- The classification test of `find_questions` on the stripped text. -/
def isQuestion (text : List Char) : Bool :=
  text.contains '?' && question_indicators.any (fun ind => isSubstr ind (pyLower text))

/-- Result record appended by `find_questions`. -/
structure QuestionRec where
  text : List Char
  author : String
  likes : Nat
  is_reply : Bool
deriving DecidableEq

/-- The stored-text truncation of `find_questions`: text longer than 200
characters is stored truncated with an ellipsis marker. -/
def truncateStored (text : List Char) : List Char :=
  if 200 < text.length then text.take 200 ++ "...".toList else text

/-- Model of `find_questions`: filter by the question test on the stripped
text, store the (truncated) text with author/likes/reply flag, sort by likes
descending (stable) and keep the first `top_n`. -/
def find_questions (comments : List Comment) (top_n : Nat := 10) : List QuestionRec :=
  let questions := comments.filterMap (fun c =>
    let text := pyStrip c.text
    if isQuestion text then
      some { text := truncateStored text, author := c.author, likes := c.like_count,
             is_reply := c.is_reply }
    else none)
  (questions.insertionSort (keyGE QuestionRec.likes)).take top_n

end CommentAnalyzer

namespace AnalyzeCommentsScript

/-- Result mapping of `basic_statistics` in the example analysis script. -/
structure BasicStatsEx where
  total_comments : Nat
  top_level_comments : Nat
  replies : Nat
  total_likes : Nat
  avg_likes : ℚ
  top_authors : List (String × Nat)
deriving DecidableEq

/-- Model of `basic_statistics`: the mean like count is guarded to 0 on an
empty collection instead of dividing by zero. -/
def basic_statistics (comments : List Comment) : BasicStatsEx :=
  { total_comments := comments.length,
    top_level_comments := (comments.filter (fun c => !c.is_reply)).length,
    replies := (comments.filter (fun c => c.is_reply)).length,
    total_likes := CommentAnalyzer.totalLikes comments,
    avg_likes :=
      if 0 < comments.length then
        (CommentAnalyzer.totalLikes comments : ℚ) / (comments.length : ℚ)
      else 0,
    top_authors := mostCommon (comments.map Comment.author) 10 }

/-- Question record of `extract_questions`: the stored text is the stripped
comment text, untruncated. -/
structure QuestionEx where
  question : List Char
  author : String
  likes : Nat
deriving DecidableEq

/-- Indicator strings of `extract_questions` (again containing `?` itself). -/
def question_indicators_ex : List (List Char) :=
  ["?", "how", "what", "why", "when", "where", "which", "can you"].map String.toList

/-- Classification test of `extract_questions`. -/
def isQuestionEx (text : List Char) : Bool :=
  text.contains '?' && question_indicators_ex.any (fun ind => isSubstr ind (pyLower text))

/-- Model of `extract_questions`: filter, store the full stripped text, sort
by likes descending (stable); no truncation of the stored text. -/
def extract_questions (comments : List Comment) : List QuestionEx :=
  (comments.filterMap (fun c =>
    let text := pyStrip c.text
    if isQuestionEx text then
      some { question := text, author := c.author, likes := c.like_count }
    else none)).insertionSort (keyGE QuestionEx.likes)

end AnalyzeCommentsScript

/-- C9: the reported average_segment_length is the segment count divided by
itself, hence 1 whenever at least one segment is produced and 0 when there are
no segments. -/
theorem C9_average_segment_length (transcript : List RawEntry) :
    (YouTubeCaptionDownloader.process_transcript transcript).statistics.average_segment_length
      = if (YouTubeCaptionDownloader.process_transcript transcript).segments = [] then 0 else 1 := by
  by_cases h : transcript = []
  · subst h; rfl
  · simp only [YouTubeCaptionDownloader.process_transcript, if_neg h]
    by_cases hs : YouTubeCaptionDownloader.processEntries transcript = []
    · simp [hs]
    · simp only [if_neg hs]
      rw [div_self]
      exact Nat.cast_ne_zero.mpr (by simpa [List.length_eq_zero] using hs)

/-- A single-character needle is a substring exactly when the character is a
member of the haystack. -/
theorem isSubstr_singleton (a : Char) (l : List Char) : isSubstr [a] l = l.contains a := by
  induction l with
  | nil => rfl
  | cons c rest ih =>
    show ([a].isPrefixOf (c :: rest) || isSubstr [a] rest) = (c :: rest).contains a
    simp [List.isPrefixOf, ih, Bool.beq_eq_decide_eq]

/-- Lower-casing preserves the question mark, so a text containing `?` also
contains it after `str.lower`. -/
theorem contains_qmark_pyLower (text : List Char) (h : text.contains '?' = true) :
    (pyLower text).contains '?' = true := by
  have hm : '?' ∈ text := by simpa [List.contains, List.elem_eq_mem] using h
  have hm2 : '?' ∈ pyLower text := List.mem_map.mpr ⟨'?', hm, by decide⟩
  simpa [List.contains, List.elem_eq_mem] using hm2

/-- The specification's question scenario: the first record. -/
def scenarioQ1 : Comment :=
  { text := "how do I install this?".toList, author := "u1", like_count := 10,
    is_reply := false, published_at := none }

/-- The specification's question scenario: the second record. -/
def scenarioQ2 : Comment :=
  { text := "great video!".toList, author := "u2", like_count := 3,
    is_reply := false, published_at := none }

/-- A record whose text contains `?` but none of the indicator words. -/
def qmarkOnly : Comment :=
  { text := "abc?".toList, author := "u3", like_count := 0,
    is_reply := false, published_at := none }

/-- C2 counterexample: a record containing `?` but none of the indicator
words how/what/why/when/where/which/can you (nor could you) is nevertheless
classified as a question, because the literal `?` is itself in the indicator
list; the claim says it must not be classified. -/
theorem C2_counterexample :
    (CommentAnalyzer.find_questions [qmarkOnly] 10).length = 1 ∧
    (["how", "what", "why", "when", "where", "which", "can you", "could you"].map
        String.toList).all
      (fun ind => !(isSubstr ind (pyLower (pyStrip ("abc?".toList))))) = true :=
  ⟨by decide, by decide⟩

/-- C2 (amended): because the literal `?` is itself in the indicator list,
the indicator conjunct is vacuous — a record is classified as a question
exactly when its stripped text contains `?`; on the scenario input exactly
the first record is returned, ranked first. -/
theorem C2_question_iff_question_mark :
    (∀ text : List Char, CommentAnalyzer.isQuestion text = text.contains '?') ∧
    CommentAnalyzer.find_questions [scenarioQ1, scenarioQ2] 10 =
      [{ text := "how do I install this?".toList, author := "u1", likes := 10,
         is_reply := false }] := by
  refine ⟨?_, by decide⟩
  intro text
  cases h : text.contains '?' with
  | false =>
    unfold CommentAnalyzer.isQuestion
    rw [h, Bool.false_and]
  | true =>
    unfold CommentAnalyzer.isQuestion
    rw [h, Bool.true_and]
    rw [List.any_eq_true]
    refine ⟨"?".toList, by decide, ?_⟩
    show isSubstr ("?".toList) (pyLower text) = true
    rw [show ("?".toList) = ['?'] from rfl, isSubstr_singleton]
    exact contains_qmark_pyLower text h

/-- A non-empty record with zero likes. -/
def zeroLikeComment : Comment :=
  { text := "nice".toList, author := "a", like_count := 0,
    is_reply := false, published_at := none }

/-- C3 counterexample: a non-empty collection whose single record has zero
likes also reports mean 0, so a zero mean does not imply that the collection
is empty. -/
theorem C3_counterexample :
    (AnalyzeCommentsScript.basic_statistics [zeroLikeComment]).avg_likes = 0 ∧
    ([zeroLikeComment] : List Comment) ≠ [] :=
  ⟨by decide, by decide⟩

/-- C3 (amended): the mean like count is 0 exactly when the total like count
is 0 (like counts are non-negative, so this includes every empty collection
but also any non-empty collection of zero-like records); an empty collection
yields the all-zero result without attempting a division, and the scraper's
get_basic_stats returns the empty mapping for it. -/
theorem C3_mean_zero_iff_total_zero (comments : List Comment) :
    ((AnalyzeCommentsScript.basic_statistics comments).avg_likes = 0 ↔
      CommentAnalyzer.totalLikes comments = 0) ∧
    (comments = [] →
      AnalyzeCommentsScript.basic_statistics comments =
        { total_comments := 0, top_level_comments := 0, replies := 0, total_likes := 0,
          avg_likes := 0, top_authors := [] } ∧
      CommentAnalyzer.get_basic_stats comments = none) := by
  constructor
  · by_cases h : comments = []
    · subst h
      simp [AnalyzeCommentsScript.basic_statistics, CommentAnalyzer.totalLikes]
    · have hlen : 0 < comments.length := List.length_pos.mpr h
      show (AnalyzeCommentsScript.basic_statistics comments).avg_likes = 0 ↔ _
      unfold AnalyzeCommentsScript.basic_statistics
      simp only [if_pos hlen]
      rw [div_eq_zero_iff]
      constructor
      · rintro (h0 | h0)
        · exact_mod_cast h0
        · exact absurd (Nat.cast_eq_zero.mp h0) (Nat.pos_iff_ne_zero.mp hlen)
      · intro h0
        exact Or.inl (by exact_mod_cast h0)
  · intro h
    subst h
    exact ⟨by decide, by decide⟩

/-- Witness for the amended C3 at the empty collection. -/
theorem C3_witness :
    CommentAnalyzer.get_basic_stats ([] : List Comment) = none :=
  ((C3_mean_zero_iff_total_zero []).2 rfl).2

/-- A question record whose stripped text is 204 characters long. -/
def longQuestionComment : Comment :=
  { text := "how ".toList ++ List.replicate 199 'a' ++ "?".toList, author := "u4",
    like_count := 1, is_reply := false, published_at := none }

/-- C7 counterexample: find_questions stores the text of a comment longer
than 200 characters truncated with an ellipsis marker, not the full original
text, contrary to the claim that the stored text is never truncated. -/
theorem C7_counterexample :
    (CommentAnalyzer.find_questions [longQuestionComment] 10).map
        CommentAnalyzer.QuestionRec.text
      = ["how ".toList ++ List.replicate 196 'a' ++ "...".toList] ∧
    "how ".toList ++ List.replicate 196 'a' ++ "...".toList ≠ longQuestionComment.text :=
  ⟨by decide, by decide⟩

/-- C7 (amended): the example script's extract_questions stores the stripped
comment text in full, but the scraper's find_questions stores the stripped
text truncated at 200 characters with an ellipsis marker whenever it is
longer; shorter texts are stored unchanged (beyond stripping). -/
theorem C7_stored_text (comments : List Comment) (top_n : Nat) :
    (∀ q ∈ CommentAnalyzer.find_questions comments top_n,
      ∃ c ∈ comments, q.text = CommentAnalyzer.truncateStored (pyStrip c.text)) ∧
    (∀ q ∈ AnalyzeCommentsScript.extract_questions comments,
      ∃ c ∈ comments, q.question = pyStrip c.text) := by
  constructor
  · intro q hq
    have hq1 : q ∈ comments.filterMap (fun c =>
        let text := pyStrip c.text
        if CommentAnalyzer.isQuestion text then
          some { text := CommentAnalyzer.truncateStored text, author := c.author,
                 likes := c.like_count,
                 is_reply := c.is_reply : CommentAnalyzer.QuestionRec }
        else none) := by
      have := List.take_subset top_n _ hq
      simpa [CommentAnalyzer.find_questions] using this
    obtain ⟨c, hc, hfc⟩ := List.mem_filterMap.mp hq1
    refine ⟨c, hc, ?_⟩
    by_cases hiq : CommentAnalyzer.isQuestion (pyStrip c.text)
    · simp only [hiq, if_pos] at hfc
      rw [← Option.some.inj hfc]
    · simp [hiq] at hfc
  · intro q hq
    have hq1 : q ∈ comments.filterMap (fun c =>
        let text := pyStrip c.text
        if AnalyzeCommentsScript.isQuestionEx text then
          some { question := text, author := c.author,
                 likes := c.like_count : AnalyzeCommentsScript.QuestionEx }
        else none) := by
      simpa [AnalyzeCommentsScript.extract_questions] using hq
    obtain ⟨c, hc, hfc⟩ := List.mem_filterMap.mp hq1
    refine ⟨c, hc, ?_⟩
    by_cases hiq : AnalyzeCommentsScript.isQuestionEx (pyStrip c.text)
    · simp only [hiq, if_pos] at hfc
      rw [← Option.some.inj hfc]
    · simp [hiq] at hfc

/-- Witness for the amended C7 on the scenario record. -/
theorem C7_witness :
    ∃ c ∈ ([scenarioQ1] : List Comment),
      ("how do I install this?".toList) = pyStrip c.text :=
  (C7_stored_text [scenarioQ1] 10).2
    { question := "how do I install this?".toList, author := "u1", likes := 10 }
    (by decide)

namespace CommentAnalyzer

/-- Top-comment preview record of `analyze_engagement_patterns`. -/
structure TopCommentPreview where
  author : String
  likes : Nat
  text_preview : List Char
deriving DecidableEq

/-- Result mapping of `analyze_engagement_patterns`. -/
structure EngagementPatterns where
  max_likes : Nat
  median_likes : Nat
  top_comments : List TopCommentPreview
  peak_hours : List (Nat × Nat)
deriving DecidableEq

/-- Python `str.replace` of every `Z` by `+00:00`. -/
def replaceZ : List Char → List Char
  | [] => []
  | c :: rest =>
    if c == 'Z' then '+' :: '0' :: '0' :: ':' :: '0' :: '0' :: replaceZ rest
    else c :: replaceZ rest

/-- Hour extraction of one record: models the guarded
`datetime.fromisoformat(published_at.replace(...)).hour`; `parseHour`
abstracts the external stdlib parser (`none` models its ValueError) and a
missing published_at key models the KeyError, both caught by the source's
`continue`. -/
def commentHour (parseHour : List Char → Option Nat) (c : Comment) : Option Nat :=
  c.published_at.bind (fun s => parseHour (replaceZ s))

/-- Hours of the parseable records, in input order. -/
def hoursOf (parseHour : List Char → Option Nat) (comments : List Comment) : List Nat :=
  comments.filterMap (commentHour parseHour)

/-- The peak-hour aggregation: the hourly Counter's most_common(3), with the
source's guard returning the empty list when no record parsed. -/
def peakHours (parseHour : List Char → Option Nat) (comments : List Comment) :
    List (Nat × Nat) :=
  if hoursOf parseHour comments = [] then [] else mostCommon (hoursOf parseHour comments) 3

/-- Python `max` over a Nat list with the source's guarded default of 0. -/
def natListMax : List Nat → Nat
  | [] => 0
  | x :: xs => xs.foldl (fun cur y => if cur < y then y else cur) x

/-- Model of `analyze_engagement_patterns`; the empty early-return of the
empty mapping is `none`. -/
def analyze_engagement_patterns (parseHour : List Char → Option Nat)
    (comments : List Comment) : Option EngagementPatterns :=
  if comments = [] then none
  else
    let likes_data := (comments.map Comment.like_count).insertionSort (keyGE id)
    some
      { max_likes := natListMax likes_data,
        median_likes := likes_data.getD (likes_data.length / 2) 0,
        top_comments := ((comments.insertionSort (keyGE Comment.like_count)).take 5).map
          (fun c =>
            { author := c.author, likes := c.like_count,
              text_preview :=
                if 100 < c.text.length then c.text.take 100 ++ "...".toList else c.text }),
        peak_hours := peakHours parseHour comments }

end CommentAnalyzer

/-- C8: a record whose published timestamp is absent or fails ISO-8601
parsing is excluded from the peak-hour time-based aggregation while every
other record is still aggregated (the hour list and the peak-hour result are
unchanged by inserting such a record anywhere), and the analysis is a total
function returning a result on every non-empty collection. -/
theorem C8_malformed_timestamp_skipped (parseHour : List Char → Option Nat)
    (pre post : List Comment) (r : Comment)
    (hr : CommentAnalyzer.commentHour parseHour r = none) :
    CommentAnalyzer.hoursOf parseHour (pre ++ r :: post)
      = CommentAnalyzer.hoursOf parseHour (pre ++ post) ∧
    CommentAnalyzer.peakHours parseHour (pre ++ r :: post)
      = CommentAnalyzer.peakHours parseHour (pre ++ post) ∧
    (∀ comments : List Comment, comments ≠ [] →
      ∃ res, CommentAnalyzer.analyze_engagement_patterns parseHour comments = some res) := by
  have h1 : CommentAnalyzer.hoursOf parseHour (pre ++ r :: post)
      = CommentAnalyzer.hoursOf parseHour (pre ++ post) := by
    simp [CommentAnalyzer.hoursOf, List.filterMap_append, List.filterMap_cons, hr]
  refine ⟨h1, ?_, ?_⟩
  · unfold CommentAnalyzer.peakHours
    rw [h1]
  · intro comments hne
    unfold CommentAnalyzer.analyze_engagement_patterns
    rw [if_neg hne]
    exact ⟨_, rfl⟩

/-- A timestamp the demo parser understands. -/
def goodStamp : List Char := "2024-01-01T10:00:00Z".toList

/-- A concrete stand-in for the external ISO-8601 parser: it knows exactly
one timestamp (after Z-replacement) and rejects everything else. -/
def demoParseHour : List Char → Option Nat := fun s =>
  if s = "2024-01-01T10:00:00+00:00".toList then some 10 else none

/-- A record with a parseable timestamp. -/
def parsedComment : Comment :=
  { text := "ok".toList, author := "p", like_count := 2, is_reply := false,
    published_at := some goodStamp }

/-- A record with a malformed timestamp. -/
def badStampComment : Comment :=
  { text := "bad".toList, author := "q", like_count := 3, is_reply := false,
    published_at := some ("not-a-date".toList) }

/-- Witness for C8: adding one malformed-timestamp record leaves the
peak-hour aggregation unchanged, and the parseable record is aggregated. -/
theorem C8_witness :
    CommentAnalyzer.peakHours demoParseHour ([parsedComment] ++ badStampComment :: [])
      = CommentAnalyzer.peakHours demoParseHour ([parsedComment] ++ []) ∧
    CommentAnalyzer.peakHours demoParseHour [parsedComment] = [(10, 1)] :=
  ⟨(C8_malformed_timestamp_skipped demoParseHour [parsedComment] [] badStampComment
      (by decide)).2.1,
   by decide⟩

namespace CommentAnalyzer

/-- Beginner indicator strings of `analyze_audience_level`. -/
def beginner_indicators : List (List Char) :=
  ["beginner", "new to", "just started", "tutorial", "how to", "basic", "simple"].map
    String.toList

/-- Intermediate indicator strings of `analyze_audience_level`. -/
def intermediate_indicators : List (List Char) :=
  ["implement", "production", "best practice", "experience", "recommend", "migrate"].map
    String.toList

/-- Advanced indicator strings of `analyze_audience_level`. -/
def advanced_indicators : List (List Char) :=
  ["architecture", "performance", "optimize", "scale", "enterprise", "custom", "extend"].map
    String.toList

/-- The three audience tiers. -/
inductive AudienceLevel
  | beginner
  | intermediate
  | advanced
deriving DecidableEq

/-- Classification of one record with the source's precedence: beginner
indicators first, then advanced, then intermediate; `none` when no indicator
matches (such records are excluded from the denominator). -/
def classifyAudience (c : Comment) : Option AudienceLevel :=
  if beginner_indicators.any (fun i => isSubstr i (pyLower c.text)) then
    some AudienceLevel.beginner
  else if advanced_indicators.any (fun i => isSubstr i (pyLower c.text)) then
    some AudienceLevel.advanced
  else if intermediate_indicators.any (fun i => isSubstr i (pyLower c.text)) then
    some AudienceLevel.intermediate
  else none

/-- Number of records the classification loop counts as beginner. -/
def beginnerCount (comments : List Comment) : Nat :=
  comments.countP (fun c => classifyAudience c == some AudienceLevel.beginner)

/-- Number of records the classification loop counts as intermediate. -/
def intermediateCount (comments : List Comment) : Nat :=
  comments.countP (fun c => classifyAudience c == some AudienceLevel.intermediate)

/-- Number of records the classification loop counts as advanced. -/
def advancedCount (comments : List Comment) : Nat :=
  comments.countP (fun c => classifyAudience c == some AudienceLevel.advanced)

/-- `total = sum(levels.values())` of the source. -/
def classifiedTotal (comments : List Comment) : Nat :=
  beginnerCount comments + intermediateCount comments + advancedCount comments

/-- One percentage entry `(v / total) * 100`. -/
def pctOf (n total : Nat) : ℚ := (n : ℚ) / (total : ℚ) * 100

/-- Result of `analyze_audience_level`.  In the zero-classified branch the
Python dict carries the all-zero counts and no total_classified key; that is
modelled by zero percentages and total 0, which are the same values. -/
structure AudienceResult where
  dominant_level : String
  beginner_pct : ℚ
  intermediate_pct : ℚ
  advanced_pct : ℚ
  total_classified : Nat
deriving DecidableEq

/-- The `max(percentages.keys(), key=...)` fold over the insertion order
beginner, intermediate, advanced: a later key replaces the running maximum
only when strictly greater. -/
def dominantLevel (bp ip ap : ℚ) : String :=
  let m1 := if bp < ip then ("intermediate", ip) else ("beginner", bp)
  if m1.2 < ap then "advanced" else m1.1

/-- Model of `analyze_audience_level`; the empty early-return is `none`. -/
def analyze_audience_level (comments : List Comment) : Option AudienceResult :=
  if comments = [] then none
  else if classifiedTotal comments = 0 then
    some { dominant_level := "intermediate", beginner_pct := 0, intermediate_pct := 0,
           advanced_pct := 0, total_classified := 0 }
  else
    some { dominant_level :=
             dominantLevel (pctOf (beginnerCount comments) (classifiedTotal comments))
               (pctOf (intermediateCount comments) (classifiedTotal comments))
               (pctOf (advancedCount comments) (classifiedTotal comments)),
           beginner_pct := pctOf (beginnerCount comments) (classifiedTotal comments),
           intermediate_pct := pctOf (intermediateCount comments) (classifiedTotal comments),
           advanced_pct := pctOf (advancedCount comments) (classifiedTotal comments),
           total_classified := classifiedTotal comments }

end CommentAnalyzer

/-- C4: each record is assigned to at most one tier with beginner indicators
checked first, then advanced, then intermediate (so a record matching both
beginner and advanced indicators is classified beginner); whenever the
classified count is positive the three reported percentages sum to exactly
100, and whenever it is zero the dominant level defaults to intermediate. -/
theorem C4_audience_level (comments : List Comment) (c : Comment)
    (res : CommentAnalyzer.AudienceResult)
    (hres : CommentAnalyzer.analyze_audience_level comments = some res) :
    (CommentAnalyzer.beginner_indicators.any (fun i => isSubstr i (pyLower c.text)) = true →
      CommentAnalyzer.classifyAudience c = some CommentAnalyzer.AudienceLevel.beginner) ∧
    (0 < res.total_classified →
      res.beginner_pct + res.intermediate_pct + res.advanced_pct = 100) ∧
    (res.total_classified = 0 → res.dominant_level = "intermediate") := by
  refine ⟨?_, ?_, ?_⟩
  · intro hb
    simp [CommentAnalyzer.classifyAudience, hb]
  · intro hpos
    by_cases hc : comments = []
    · rw [hc] at hres
      simp [CommentAnalyzer.analyze_audience_level] at hres
    · unfold CommentAnalyzer.analyze_audience_level at hres
      rw [if_neg hc] at hres
      by_cases htot : CommentAnalyzer.classifiedTotal comments = 0
      · rw [if_pos htot] at hres
        obtain rfl := Option.some.inj hres
        exact absurd hpos (by decide)
      · rw [if_neg htot] at hres
        obtain rfl := Option.some.inj hres
        show CommentAnalyzer.pctOf _ _ + CommentAnalyzer.pctOf _ _ + CommentAnalyzer.pctOf _ _ = 100
        unfold CommentAnalyzer.pctOf
        have ht : ((CommentAnalyzer.classifiedTotal comments : Nat) : ℚ) ≠ 0 :=
          Nat.cast_ne_zero.mpr htot
        have hsum : ((CommentAnalyzer.beginnerCount comments : ℚ)
            + (CommentAnalyzer.intermediateCount comments : ℚ)
            + (CommentAnalyzer.advancedCount comments : ℚ))
            = ((CommentAnalyzer.classifiedTotal comments : Nat) : ℚ) := by
          unfold CommentAnalyzer.classifiedTotal
          push_cast
          ring
        field_simp
        linear_combination (100 : ℚ) * hsum
  · intro hzero
    by_cases hc : comments = []
    · rw [hc] at hres
      simp [CommentAnalyzer.analyze_audience_level] at hres
    · unfold CommentAnalyzer.analyze_audience_level at hres
      rw [if_neg hc] at hres
      by_cases htot : CommentAnalyzer.classifiedTotal comments = 0
      · rw [if_pos htot] at hres
        obtain rfl := Option.some.inj hres
        rfl
      · rw [if_neg htot] at hres
        obtain rfl := Option.some.inj hres
        exact absurd hzero htot

/-- A record matching a beginner indicator. -/
def beginnerComment : Comment :=
  { text := "great beginner content".toList, author := "b", like_count := 1,
    is_reply := false, published_at := none }

/-- The audience-analysis result on the single beginner record. -/
def beginnerResult : CommentAnalyzer.AudienceResult :=
  { dominant_level := "beginner",
    beginner_pct := CommentAnalyzer.pctOf 1 1,
    intermediate_pct := CommentAnalyzer.pctOf 0 1,
    advanced_pct := CommentAnalyzer.pctOf 0 1,
    total_classified := 1 }

/-- Witness for C4: one classified record gives percentages summing to 100,
and the matching record is classified beginner. -/
theorem C4_witness :
    CommentAnalyzer.classifyAudience beginnerComment
      = some CommentAnalyzer.AudienceLevel.beginner ∧
    beginnerResult.beginner_pct + beginnerResult.intermediate_pct
      + beginnerResult.advanced_pct = 100 :=
  ⟨(C4_audience_level [beginnerComment] beginnerComment beginnerResult (by decide)).1
      (by decide),
   (C4_audience_level [beginnerComment] beginnerComment beginnerResult (by decide)).2.1
      (by decide)⟩

/-- Membership in the first-occurrence list is plain membership. -/
theorem mem_firstOccs {α : Type} [DecidableEq α] (a : α) (l : List α) :
    a ∈ firstOccs l ↔ a ∈ l := by
  induction l with
  | nil => simp [firstOccs]
  | cons b l ih =>
    by_cases hab : a = b
    · subst hab; simp [firstOccs]
    · simp [firstOccs, List.mem_filter, ih, hab]

/-- A pair is an item of the Counter model exactly when its key occurs in the
list and its value is that key's multiplicity. -/
theorem mem_counterItems {α : Type} [DecidableEq α] (w : α) (cnt : Nat) (l : List α) :
    (w, cnt) ∈ counterItems l ↔ w ∈ l ∧ cnt = l.count w := by
  simp only [counterItems, List.mem_map, Prod.ext_iff]
  constructor
  · rintro ⟨a, ha, rfl, rfl⟩
    exact ⟨(mem_firstOccs a l).mp ha, rfl⟩
  · rintro ⟨hw, rfl⟩
    exact ⟨w, (mem_firstOccs w l).mpr hw, rfl, rfl⟩

namespace CommentAnalyzer

/-- Stopword set of `extract_keywords`. -/
def stop_words : List (List Char) :=
  ["this", "that", "with", "have", "will", "from", "they", "been",
   "were", "said", "each", "which", "their", "time", "would", "there",
   "what", "when", "where", "your", "just", "like", "dont", "really",
   "think", "know", "good", "great", "thanks", "thank", "video",
   "youtube", "channel", "subscribe", "comment", "comments"].map String.toList

/-- The lower-cased concatenation of all comment texts, space-separated. -/
def all_text (comments : List Comment) : List Char :=
  joinSpace (comments.map (fun c => pyLower c.text))

/-- The tokens found by the word-run regex with lower bound L: maximal runs
of word characters of length at least L. -/
def keywordTokens (comments : List Comment) (min_word_length : Nat) : List (List Char) :=
  (runsOf isWordChar (all_text comments)).filter
    (fun w => decide (min_word_length ≤ w.length))

/-- The source's keyword filter: not a stop word AND length strictly greater
than min_word_length. -/
def filtered_words (comments : List Comment) (min_word_length : Nat) : List (List Char) :=
  (keywordTokens comments min_word_length).filter
    (fun w => !(stop_words.contains w) && decide (min_word_length < w.length))

/-- Model of `extract_keywords`: `Counter(filtered_words).most_common(top_n)`. -/
def extract_keywords (comments : List Comment) (min_word_length : Nat := 4)
    (top_n : Nat := 15) : List (List Char × Nat) :=
  mostCommon (filtered_words comments min_word_length) top_n

end CommentAnalyzer

/-- A record whose text is one four-letter non-stopword token. -/
def rubyComment : Comment :=
  { text := "ruby".toList, author := "r", like_count := 0, is_reply := false,
    published_at := none }

/-- C5 counterexample: "ruby" is a case-folded maximal run of word characters
of length exactly 4 (the default L) and is not a stop word, so by the claim
it must be counted; extract_keywords nevertheless returns nothing, because
the source's filter also demands length strictly greater than L. -/
theorem C5_counterexample :
    CommentAnalyzer.extract_keywords [rubyComment] 4 15 = [] ∧
    "ruby".toList ∈ CommentAnalyzer.keywordTokens [rubyComment] 4 ∧
    "ruby".toList ∉ CommentAnalyzer.stop_words ∧
    ("ruby".toList).length = 4 :=
  ⟨by decide, by decide, by decide, by decide⟩

/-- C5 (amended): the keyword extractor returns at most top_n pairs with
frequencies in non-increasing order, and a token is counted (is a key of the
underlying Counter) exactly when it is a case-folded maximal run of word
characters of length at least L that is not a stop word AND has length
strictly greater than L — tokens of length exactly L are dropped. -/
theorem C5_extract_keywords (comments : List Comment) (L topN : Nat) :
    (CommentAnalyzer.extract_keywords comments L topN).length ≤ topN ∧
    List.Sorted countGE (CommentAnalyzer.extract_keywords comments L topN) ∧
    (∀ w : List Char,
      (∃ cnt, (w, cnt) ∈ counterItems (CommentAnalyzer.filtered_words comments L)) ↔
        (w ∈ CommentAnalyzer.keywordTokens comments L ∧
          w ∉ CommentAnalyzer.stop_words ∧ L < w.length)) := by
  refine ⟨?_, ?_, ?_⟩
  · unfold CommentAnalyzer.extract_keywords mostCommon
    exact (List.length_take _ _).le.trans (Nat.min_le_left _ _)
  · unfold CommentAnalyzer.extract_keywords mostCommon
    exact List.Pairwise.sublist (List.take_sublist _ _)
      (List.sorted_insertionSort countGE _)
  · intro w
    constructor
    · rintro ⟨cnt, hw⟩
      have hmem := ((mem_counterItems w cnt _).mp hw).1
      simp only [CommentAnalyzer.filtered_words, List.mem_filter, Bool.and_eq_true,
        Bool.not_eq_true', decide_eq_true_iff] at hmem
      refine ⟨hmem.1, ?_, hmem.2.2⟩
      intro hws
      have := hmem.2.1
      rw [List.contains, List.elem_eq_mem, decide_eq_false_iff_not] at this
      exact this hws
    · rintro ⟨h1, h2, h3⟩
      refine ⟨_, (mem_counterItems w _ _).mpr ⟨?_, rfl⟩⟩
      simp only [CommentAnalyzer.filtered_words, List.mem_filter, Bool.and_eq_true,
        Bool.not_eq_true', decide_eq_true_iff]
      refine ⟨h1, ?_, h3⟩
      rw [List.contains, List.elem_eq_mem, decide_eq_false_iff_not]
      exact h2

namespace CommentAnalyzer

/-- Topic entry of the `mentioned_topics` list in `suggest_future_topics`. -/
structure TopicData where
  topic : List Char
  mentions : Nat
  avg_engagement : ℚ
  suggestions : List String
  interest_score : ℚ
deriving DecidableEq

/-- Video-suggestion record; `source_question := none` models the key absent
from the taxonomy-stage dicts. -/
structure VideoSuggestion where
  title : String
  based_on_topic : List Char
  mentions : Nat
  avg_engagement : ℚ
  priority : String
  source_question : Option (List Char)
deriving DecidableEq

/-- The fixed container-topic taxonomy, in source (insertion) order. -/
def container_topics : List (List Char × List String) := [
  ("kubernetes".toList, ["Kubernetes networking deep dive", "K8s security best practices",
    "Helm chart optimization", "Kubernetes troubleshooting"]),
  ("docker".toList, ["Docker vs Podman migration guide", "Docker security hardening",
    "Multi-stage Docker builds", "Docker networking explained"]),
  ("podman".toList, ["Podman rootless containers", "Podman pods vs containers",
    "Podman systemd integration", "Podman desktop vs CLI"]),
  ("security".toList, ["Container security scanning", "Runtime security with Falco",
    "Image vulnerability management", "Zero-trust containers"]),
  ("networking".toList, ["Container networking fundamentals", "Service mesh with Istio",
    "Load balancing containers", "CNI plugins comparison"]),
  ("buildah".toList, ["Buildah vs Docker build", "Scriptable container builds",
    "Multi-arch builds with Buildah", "OCI image creation"]),
  ("skopeo".toList, ["Image registry management", "Container image signing",
    "Air-gapped image workflows", "Image inspection tools"]),
  ("production".toList, ["Production container deployment", "Container monitoring setup",
    "Logging best practices", "Auto-scaling containers"]),
  ("performance".toList, ["Container performance tuning", "Resource optimization",
    "Memory management in containers", "Container benchmarking"]),
  ("orchestration".toList, ["Container orchestration comparison", "Docker Swarm vs Kubernetes",
    "Nomad for containers", "Container scheduling"]),
  ("monitoring".toList, ["Prometheus for containers", "Grafana dashboards",
    "Container metrics collection", "Alerting strategies"]),
  ("storage".toList, ["Container persistent storage", "Volume management",
    "Storage drivers comparison", "Data backup strategies"]),
  ("cicd".toList, ["Container CI/CD pipelines", "GitOps workflows",
    "Automated testing", "Deployment strategies"]),
  ("compose".toList, ["Docker Compose advanced features", "Multi-environment setups",
    "Compose vs Kubernetes", "Development workflows"])]

/-- Whether the character following a keyword match (if any) is a non-word
character, i.e. the trailing regex word boundary holds. -/
def boundaryAfter (topic s : List Char) : Bool :=
  match s.drop topic.length with
  | [] => true
  | d :: _ => !isWordChar d

/-- Worker for `countWordOccur`; the flag records whether the previous
character was a word character (so no word boundary lies here). -/
def countWordOccurAux (topic : List Char) : Bool → List Char → Nat
  | _, [] => 0
  | prevW, c :: rest =>
    (if !prevW && topic.isPrefixOf (c :: rest) && boundaryAfter topic (c :: rest)
     then 1 else 0)
      + countWordOccurAux topic (isWordChar c) rest

/-- Number of word-boundary regex matches of a taxonomy keyword in the text:
every taxonomy keyword consists of word characters only, so matches cannot
overlap and counting the match positions equals the findall count. -/
def countWordOccur (topic s : List Char) : Nat := countWordOccurAux topic false s

/-- The records whose lower-cased text mentions the topic as a substring. -/
def relevantComments (topic : List Char) (comments : List Comment) : List Comment :=
  comments.filter (fun c => isSubstr topic (pyLower c.text))

/-- Mean like count of the records mentioning the topic, guarded to 0. -/
def avgEngagement (topic : List Char) (comments : List Comment) : ℚ :=
  if relevantComments topic comments = [] then 0
  else (totalLikes (relevantComments topic comments) : ℚ)
    / ((relevantComments topic comments).length : ℚ)

/-- The interest score `mentions * (1 + avg_engagement)` of a topic. -/
def interestScore (comments : List Comment) (topic : List Char) : ℚ :=
  (countWordOccur topic (all_text comments) : ℚ) * (1 + avgEngagement topic comments)

/-- The `mentioned_topics` accumulation loop: one entry per taxonomy keyword
with at least one word-boundary occurrence. -/
def mentioned_topics (comments : List Comment) : List TopicData :=
  container_topics.filterMap (fun p =>
    if 0 < countWordOccur p.1 (all_text comments) then
      some { topic := p.1, mentions := countWordOccur p.1 (all_text comments),
             avg_engagement := avgEngagement p.1 comments,
             suggestions := p.2,
             interest_score := interestScore comments p.1 }
    else none)

/-- Interest-score-descending order of the topic sort. -/
def scoreGE (a b : TopicData) : Prop := b.interest_score ≤ a.interest_score

instance : DecidableRel scoreGE :=
  fun a b => inferInstanceAs (Decidable (b.interest_score ≤ a.interest_score))

/-- The taxonomy-stage suggestion list: top half of the ranked topics, up to
2 titles each, tagged High when the interest score exceeds 10, else Medium. -/
def video_suggestions (comments : List Comment) (top_n : Nat) : List VideoSuggestion :=
  (((mentioned_topics comments).insertionSort scoreGE).take (top_n / 2)).flatMap
    (fun td => (td.suggestions.take 2).map (fun s =>
      { title := s, based_on_topic := td.topic, mentions := td.mentions,
        avg_engagement := td.avg_engagement,
        priority := if 10 < td.interest_score then "High" else "Medium",
        source_question := none }))

/-- The fixed emerging-technology taxonomy, in source order. -/
def tech_patterns : List (List Char × String) := [
  ("ai".toList, "AI and Machine Learning in Containers"),
  ("serverless".toList, "Serverless Containers with Knative"),
  ("wasm".toList, "WebAssembly and Container Runtime"),
  ("edge".toList, "Edge Computing with Containers"),
  ("arm".toList, "ARM/M1 Container Development"),
  ("windows".toList, "Windows Container Development"),
  ("microservices".toList, "Microservices Architecture Patterns"),
  ("observability".toList, "Container Observability Stack"),
  ("gitops".toList, "GitOps Deployment Workflows"),
  ("helm".toList, "Advanced Helm Chart Development")]

/-- The emerging-topic scan over the first 20 extracted questions; a match is
appended (priority Emerging) when its title is not already among the
taxonomy-stage suggestion titles. -/
def emerging_topics (comments : List Comment) (top_n : Nat) : List VideoSuggestion :=
  (find_questions comments 20).flatMap (fun q =>
    tech_patterns.filterMap (fun tp =>
      if isSubstr tp.1 (pyLower q.text)
          && !(((video_suggestions comments top_n).map VideoSuggestion.title).contains tp.2)
      then
        some { title := tp.2, based_on_topic := tp.1, mentions := 1,
               avg_engagement := (q.likes : ℚ), priority := "Emerging",
               source_question := some (q.text.take 100 ++ "...".toList) }
      else none))

/-- The descending lexicographic key (is-High, is-Emerging, engagement) of the
final combined sort. -/
def suggTriple (s : VideoSuggestion) : Bool × Bool × ℚ :=
  (s.priority == "High", s.priority == "Emerging", s.avg_engagement)

/-- Boolean lexicographic comparison of two sort keys. -/
def tripLeB (x y : Bool × Bool × ℚ) : Bool :=
  (!x.1 && y.1)
    || (x.1 == y.1
        && ((!x.2.1 && y.2.1) || (x.2.1 == y.2.1 && decide (x.2.2 ≤ y.2.2))))

/-- Final combined order: the Python key-descending stable sort. -/
def suggGE (a b : VideoSuggestion) : Prop := tripLeB (suggTriple b) (suggTriple a) = true

instance : DecidableRel suggGE :=
  fun a b => inferInstanceAs (Decidable (tripLeB (suggTriple b) (suggTriple a) = true))

/-- Model of `suggest_future_topics`. -/
def suggest_future_topics (comments : List Comment) (top_n : Nat := 8) :
    List VideoSuggestion :=
  ((video_suggestions comments top_n ++ emerging_topics comments top_n).insertionSort
    suggGE).take top_n

end CommentAnalyzer

/-- Every entry of the mentioned-topics list carries the interest score of
its own topic. -/
theorem mentioned_topics_score (comments : List Comment) (td : CommentAnalyzer.TopicData)
    (h : td ∈ CommentAnalyzer.mentioned_topics comments) :
    td.interest_score = CommentAnalyzer.interestScore comments td.topic := by
  obtain ⟨p, hp, hfp⟩ := List.mem_filterMap.mp h
  split_ifs at hfp with hcond
  obtain rfl := Option.some.inj hfp
  rfl

/-- Five records of text "docker" with four likes each: the specification's
topic scenario (5 mentions, mean like count 4). -/
def dockerComment : Comment :=
  { text := "docker".toList, author := "d", like_count := 4, is_reply := false,
    published_at := none }

/-- The scenario record collection. -/
def dockerComments : List Comment := List.replicate 5 dockerComment

/-- C6: every emitted suggestion derived from a taxonomy keyword (i.e. with
priority High or Medium, never Emerging) carries priority High exactly when
the keyword's interest score mentions * (1 + mean like count of mentioning
records) exceeds 10, and Medium otherwise; on the scenario collection the
docker score is 5 * (1 + 4) = 25 and every emitted suggestion is High. -/
theorem C6_interest_score_priority (comments : List Comment) (top_n : Nat)
    (s : CommentAnalyzer.VideoSuggestion)
    (hs : s ∈ CommentAnalyzer.suggest_future_topics comments top_n)
    (hp : s.priority ≠ "Emerging") :
    (s.priority = "High" ↔
      10 < CommentAnalyzer.interestScore comments s.based_on_topic) ∧
    (s.priority = "High" ∨ s.priority = "Medium") ∧
    CommentAnalyzer.interestScore dockerComments ("docker".toList) = 25 ∧
    (∀ t ∈ CommentAnalyzer.suggest_future_topics dockerComments 8,
      t.priority = "High") := by
  have hs1 : s ∈ CommentAnalyzer.video_suggestions comments top_n
      ++ CommentAnalyzer.emerging_topics comments top_n := by
    have h2 := List.take_subset top_n _ hs
    simpa using h2
  have hmain : (s.priority = "High" ↔
      10 < CommentAnalyzer.interestScore comments s.based_on_topic) ∧
      (s.priority = "High" ∨ s.priority = "Medium") := by
    rcases List.mem_append.mp hs1 with hv | he
    · obtain ⟨td, htd, hstd⟩ := List.mem_flatMap.mp hv
      obtain ⟨ttl, httl, heq⟩ := List.mem_map.mp hstd
      have htd2 : td ∈ CommentAnalyzer.mentioned_topics comments := by
        have h3 := List.take_subset (top_n / 2) _ htd
        simpa using h3
      have hscore := mentioned_topics_score comments td htd2
      have hpriority : s.priority = if 10 < td.interest_score then "High" else "Medium" := by
        rw [← heq]
      have htopic : s.based_on_topic = td.topic := by
        rw [← heq]
      rw [hpriority, htopic, ← hscore]
      by_cases h10 : 10 < td.interest_score
      · rw [if_pos h10]
        exact ⟨⟨fun _ => h10, fun _ => rfl⟩, Or.inl rfl⟩
      · rw [if_neg h10]
        exact ⟨⟨fun hmed => absurd hmed (by decide), fun hlt => absurd hlt h10⟩, Or.inr rfl⟩
    · obtain ⟨q, hq, hsq⟩ := List.mem_flatMap.mp he
      obtain ⟨tp, htp, hftp⟩ := List.mem_filterMap.mp hsq
      split_ifs at hftp with hcond
      have hpe : s.priority = "Emerging" := by
        rw [← Option.some.inj hftp]
      exact absurd hpe hp
  exact ⟨hmain.1, hmain.2, by decide, by decide⟩

/-- The first docker suggestion emitted on the scenario collection. -/
def demoSugg : CommentAnalyzer.VideoSuggestion :=
  { title := "Docker vs Podman migration guide", based_on_topic := "docker".toList,
    mentions := 5, avg_engagement := 4, priority := "High", source_question := none }

/-- Witness for C6 on the scenario collection. -/
theorem C6_witness :
    demoSugg.priority = "High" ↔
      10 < CommentAnalyzer.interestScore dockerComments demoSugg.based_on_topic :=
  (C6_interest_score_priority dockerComments 8 demoSugg (by decide) (by decide)).1

/-- Valid video-id character, the regex class of letters, digits, `_`, `-`. -/
def isVideoIdChar (c : Char) : Bool := c.isAlphanum || c == '_' || c == '-'

namespace YouTubeCommentScraper

/-- The anchored full-id test: exactly 11 characters, all id characters. -/
def matchFullVideoId (s : List Char) : Bool := s.length == 11 && s.all isVideoIdChar

/-- Try each alternative literal at the current position: the regex engine
tries the alternates left to right, each followed by exactly 11 id characters
forming the capture group. -/
def tryPatternsHere (prefixes : List (List Char)) (s : List Char) : Option (List Char) :=
  prefixes.findSome? (fun p =>
    if p.isPrefixOf s then
      if ((s.drop p.length).take 11).length == 11
          && ((s.drop p.length).take 11).all isVideoIdChar then
        some ((s.drop p.length).take 11)
      else none
    else none)

/-- `re.search`: the leftmost position where some alternate matches. -/
def searchPattern (prefixes : List (List Char)) : List Char → Option (List Char)
  | [] => none
  | c :: rest =>
    match tryPatternsHere prefixes (c :: rest) with
    | some v => some v
    | none => searchPattern prefixes rest

/-- Alternates of the first URL pattern of the source. -/
def pattern1 : List (List Char) :=
  ["youtube.com/watch?v=", "youtu.be/", "youtube.com/embed/"].map String.toList

/-- Alternates of the second URL pattern of the source. -/
def pattern2 : List (List Char) := ["youtube.com/v/"].map String.toList

/-- Model of the comment scraper's extract_video_id; `parseQueryV` abstracts
the urlparse/parse_qs fallback (none models a missing v parameter and also
any exception there, which the source swallows), and the error value models
the final `raise ValueError`. -/
def extract_video_id (parseQueryV : List Char → Option (List Char)) (url : List Char) :
    Except String (List Char) :=
  if matchFullVideoId url then Except.ok url
  else
    match searchPattern pattern1 url with
    | some v => Except.ok v
    | none =>
      match searchPattern pattern2 url with
      | some v => Except.ok v
      | none =>
        match parseQueryV url with
        | some vid =>
          if matchFullVideoId vid then Except.ok vid
          else Except.error ("Could not extract video ID from: " ++ String.mk url)
        | none => Except.error ("Could not extract video ID from: " ++ String.mk url)

end YouTubeCommentScraper

namespace YouTubeCaptionDownloader

/-- The anchored full-id test: exactly 11 characters, all id characters. -/
def matchFullVideoId (s : List Char) : Bool := s.length == 11 && s.all isVideoIdChar

/-- Try each alternative literal at the current position: the regex engine
tries the alternates left to right, each followed by exactly 11 id characters
forming the capture group. -/
def tryPatternsHere (prefixes : List (List Char)) (s : List Char) : Option (List Char) :=
  prefixes.findSome? (fun p =>
    if p.isPrefixOf s then
      if ((s.drop p.length).take 11).length == 11
          && ((s.drop p.length).take 11).all isVideoIdChar then
        some ((s.drop p.length).take 11)
      else none
    else none)

/-- `re.search`: the leftmost position where some alternate matches. -/
def searchPattern (prefixes : List (List Char)) : List Char → Option (List Char)
  | [] => none
  | c :: rest =>
    match tryPatternsHere prefixes (c :: rest) with
    | some v => some v
    | none => searchPattern prefixes rest

/-- Alternates of the first URL pattern of the source. -/
def pattern1 : List (List Char) :=
  ["youtube.com/watch?v=", "youtu.be/", "youtube.com/embed/"].map String.toList

/-- Alternates of the second URL pattern of the source. -/
def pattern2 : List (List Char) := ["youtube.com/v/"].map String.toList

/-- Model of the caption downloader's extract_video_id, a character-for-
character copy of the comment scraper's; `parseQueryV` abstracts the
urlparse/parse_qs fallback as above. -/
def extract_video_id (parseQueryV : List Char → Option (List Char)) (url : List Char) :
    Except String (List Char) :=
  if matchFullVideoId url then Except.ok url
  else
    match searchPattern pattern1 url with
    | some v => Except.ok v
    | none =>
      match searchPattern pattern2 url with
      | some v => Except.ok v
      | none =>
        match parseQueryV url with
        | some vid =>
          if matchFullVideoId vid then Except.ok vid
          else Except.error ("Could not extract video ID from: " ++ String.mk url)
        | none => Except.error ("Could not extract video ID from: " ++ String.mk url)

end YouTubeCaptionDownloader

/-- The two position-scanners agree. -/
theorem searchPattern_eq (prefixes : List (List Char)) (s : List Char) :
    YouTubeCommentScraper.searchPattern prefixes s
      = YouTubeCaptionDownloader.searchPattern prefixes s := by
  induction s with
  | nil => rfl
  | cons c rest ih =>
    simp only [YouTubeCommentScraper.searchPattern, YouTubeCaptionDownloader.searchPattern]
    rw [show YouTubeCommentScraper.tryPatternsHere prefixes (c :: rest)
        = YouTubeCaptionDownloader.tryPatternsHere prefixes (c :: rest) from rfl, ih]

/-- C10: the two extract_video_id functions (comment scraper and caption
downloader) compute the same function — same returned id and an error on
exactly the same inputs, for any behaviour of the shared urlparse fallback —
and any 11-character string of letters, digits, `-`, `_` is returned
unchanged by both. -/
theorem C10_extract_video_id_equivalent (parseQueryV : List Char → Option (List Char))
    (url : List Char) :
    YouTubeCommentScraper.extract_video_id parseQueryV url
      = YouTubeCaptionDownloader.extract_video_id parseQueryV url ∧
    (url.length = 11 → url.all isVideoIdChar = true →
      YouTubeCommentScraper.extract_video_id parseQueryV url = Except.ok url ∧
      YouTubeCaptionDownloader.extract_video_id parseQueryV url = Except.ok url) := by
  have hfun : YouTubeCommentScraper.matchFullVideoId
      = YouTubeCaptionDownloader.matchFullVideoId := rfl
  constructor
  · unfold YouTubeCommentScraper.extract_video_id YouTubeCaptionDownloader.extract_video_id
    rw [show YouTubeCommentScraper.pattern1 = YouTubeCaptionDownloader.pattern1 from rfl,
      show YouTubeCommentScraper.pattern2 = YouTubeCaptionDownloader.pattern2 from rfl,
      searchPattern_eq, searchPattern_eq, hfun]
  · intro hlen hall
    have hmatch : YouTubeCommentScraper.matchFullVideoId url = true := by
      unfold YouTubeCommentScraper.matchFullVideoId
      rw [hlen, hall]
      rfl
    constructor
    · unfold YouTubeCommentScraper.extract_video_id
      rw [hmatch]
      rfl
    · unfold YouTubeCaptionDownloader.extract_video_id
      rw [← hfun, hmatch]
      rfl

/-- Witness for C10 at a concrete 11-character id with an empty fallback. -/
theorem C10_witness :
    YouTubeCommentScraper.extract_video_id (fun _ => none) ("dQw4w9WgXcQ".toList)
      = Except.ok ("dQw4w9WgXcQ".toList) :=
  ((C10_extract_video_id_equivalent (fun _ => none) ("dQw4w9WgXcQ".toList)).2
    (by decide) (by decide)).1
